import Mathlib

/-!
Verification of the template-library modal view controller
(`assets/dev/js/editor/components/template-library/views/library-layout.js`)
against its natural-language specification.

The controller is embedded shallowly: each region is a slot holding at most
one sub-view, together with a log of the occupants it has released; each
controller operation is translated as the sequence of primitive region
events (`show` / `reset`) it performs, in source order, and its effect on
the modal state is the interpretation of that trace.
-/

namespace ElementorLibrary

/-- Modelled from the spec: a Region (Marionette region, whose implementation
is external to the repository) holds at most one occupant; `show` destroys the
current occupant if present and installs the new view; `reset` destroys the
current occupant leaving the region empty. The `released` field is a log of
the occupants destroyed so far, in order, used to state release properties. -/
structure Region (α : Type) where
  occupant : Option α := none
  released : List α := []
deriving DecidableEq, Repr

/-- Modelled from the spec: `show(view)` destroys the current occupant if
present (recording the release) and installs `view`. It always succeeds. -/
def Region.show {α : Type} (r : Region α) (v : α) : Region α :=
  { occupant := some v, released := r.released ++ r.occupant.toList }

/-- Modelled from the spec: `reset()` destroys the current occupant if
present (recording the release), leaving the region empty. -/
def Region.reset {α : Type} (r : Region α) : Region α :=
  { occupant := none, released := r.released ++ r.occupant.toList }

/-- A region with no occupant and nothing released yet. -/
def Region.empty (α : Type) : Region α := {}

/-- Folding a sequence of `show` calls over a region. -/
def Region.showSeq {α : Type} (r : Region α) (vs : List α) : Region α :=
  vs.foldl Region.show r

/-- A Backbone template model as consumed by `showPreviewView`: the only
attribute read by the controller is `url` (via `templateModel.get( 'url' )`). -/
structure TemplateModel where
  url : String
deriving DecidableEq, Repr

/-- The sub-views the layout can place into regions, each bound to the data
its constructor receives in the source. Collections, element models and
connect arguments are opaque to the controller and represented by `Nat` ids. -/
inductive SubView : Type where
  | headerActions : SubView
  | headerMenu : SubView
  | headerPreview : TemplateModel → SubView
  | headerBack : SubView
  | logo : SubView
  | templateCollection : Nat → SubView
  | saveTemplate : Nat → SubView
  | importForm : SubView
  | connectForm : Nat → SubView
  | previewFrame : String → SubView
deriving DecidableEq, Repr

/-- The named regions of the modal touched by the layout: the header's
`logoArea`, `tools` and `menuArea`, and the layout's `modalContent`. -/
inductive RegionName : Type where
  | logoArea : RegionName
  | tools : RegionName
  | menuArea : RegionName
  | modalContent : RegionName
deriving DecidableEq, Repr

/-- A primitive region mutation: either populate a region with a sub-view
or reset it to empty. -/
inductive Event : Type where
  | showEv : RegionName → SubView → Event
  | resetEv : RegionName → Event
deriving DecidableEq, Repr

/-- The modal state: its fixed set of regions. -/
structure Modal where
  logoArea : Region SubView := {}
  tools : Region SubView := {}
  menuArea : Region SubView := {}
  modalContent : Region SubView := {}
deriving DecidableEq, Repr

/-- Interpret one primitive event on the modal state. -/
def Modal.applyEvent (m : Modal) : Event → Modal
  | .showEv .logoArea v => { m with logoArea := m.logoArea.show v }
  | .showEv .tools v => { m with tools := m.tools.show v }
  | .showEv .menuArea v => { m with menuArea := m.menuArea.show v }
  | .showEv .modalContent v => { m with modalContent := m.modalContent.show v }
  | .resetEv .logoArea => { m with logoArea := m.logoArea.reset }
  | .resetEv .tools => { m with tools := m.tools.reset }
  | .resetEv .menuArea => { m with menuArea := m.menuArea.reset }
  | .resetEv .modalContent => { m with modalContent := m.modalContent.reset }

/-- Interpret a trace of events in order. -/
def Modal.runTrace (m : Modal) (es : List Event) : Modal :=
  es.foldl Modal.applyEvent m

/-- Event trace of `setHeaderDefaultParts`: shows the header-actions view in
`tools`, the header-menu view in `menuArea`, then calls `showLogo`. The final
logo event is modelled from the spec: `showLogo` lives in the base modal
layout outside the repository slice and places the logo view in the logo
region. -/
def setHeaderDefaultPartsTrace : List Event :=
  [ .showEv .tools .headerActions,
    .showEv .menuArea .headerMenu,
    .showEv .logoArea .logo ]

/-- Event trace of `showTemplatesView( templatesCollection )`. -/
def showTemplatesViewTrace (templatesCollection : Nat) : List Event :=
  [ .showEv .modalContent (.templateCollection templatesCollection) ]

/-- Event trace of `showImportView()`, in source order: reset the menu, show
the import view in the content region, show the back view in the logo area. -/
def showImportViewTrace : List Event :=
  [ .resetEv .menuArea,
    .showEv .modalContent .importForm,
    .showEv .logoArea .headerBack ]

/-- Event trace of `showConnectView( args )`, in source order. -/
def showConnectViewTrace (args : Nat) : List Event :=
  [ .resetEv .menuArea,
    .showEv .modalContent (.connectForm args) ]

/-- Event trace of `showSaveTemplateView( elementModel )`, in source order. -/
def showSaveTemplateViewTrace (elementModel : Nat) : List Event :=
  [ .resetEv .menuArea,
    .showEv .modalContent (.saveTemplate elementModel) ]

/-- Event trace of `showPreviewView( templateModel )`, in source order: the
preview view is shown in the content region FIRST, then the menu area is
reset, then the preview-header view and the back view are shown. -/
def showPreviewViewTrace (templateModel : TemplateModel) : List Event :=
  [ .showEv .modalContent (.previewFrame templateModel.url),
    .resetEv .menuArea,
    .showEv .tools (.headerPreview templateModel),
    .showEv .logoArea .headerBack ]

/-- `setHeaderDefaultParts` as a state transformer. -/
def Modal.setHeaderDefaultParts (m : Modal) : Modal :=
  m.runTrace setHeaderDefaultPartsTrace

/-- `showTemplatesView` as a state transformer. -/
def Modal.showTemplatesView (m : Modal) (templatesCollection : Nat) : Modal :=
  m.runTrace (showTemplatesViewTrace templatesCollection)

/-- `showImportView` as a state transformer. -/
def Modal.showImportView (m : Modal) : Modal :=
  m.runTrace showImportViewTrace

/-- `showConnectView` as a state transformer. -/
def Modal.showConnectView (m : Modal) (args : Nat) : Modal :=
  m.runTrace (showConnectViewTrace args)

/-- `showSaveTemplateView` as a state transformer. -/
def Modal.showSaveTemplateView (m : Modal) (elementModel : Nat) : Modal :=
  m.runTrace (showSaveTemplateViewTrace elementModel)

/-- `showPreviewView` as a state transformer. -/
def Modal.showPreviewView (m : Modal) (templateModel : TemplateModel) : Modal :=
  m.runTrace (showPreviewViewTrace templateModel)

/-- Two modal states are equivalent when each region holds the same occupant
(release histories aside), matching the spec's notion of modal state: a
region's state is its current occupant. -/
def Modal.equiv (a b : Modal) : Prop :=
  a.logoArea.occupant = b.logoArea.occupant ∧
  a.tools.occupant = b.tools.occupant ∧
  a.menuArea.occupant = b.menuArea.occupant ∧
  a.modalContent.occupant = b.modalContent.occupant

/-- A JavaScript value as far as the button-text lookup is concerned:
`null`, `undefined`, or a string. -/
inductive JsVal : Type where
  | null : JsVal
  | undefined : JsVal
  | str : String → JsVal
deriving DecidableEq, Repr

/-- Template metadata consumed by `getTemplateActionButton`: the only field
the controller reads is `accessLevel` (a JS number, compared strictly
against `0` and used as a lookup key). -/
structure TemplateData where
  accessLevel : Int
deriving DecidableEq, Repr

/-- The view identifier computed by `getTemplateActionButton` before the
filter chain runs:
`'#tmpl-elementor-template-library-' + ( accessLevel !== 0 ? 'get-pro-button' : 'insert-button' )`. -/
def computedViewId (templateData : TemplateData) : String :=
  "#tmpl-elementor-template-library-" ++
    (if templateData.accessLevel ≠ 0 then "get-pro-button" else "insert-button")

/-- The `buttonTextsFromAccessLevel` object literal: keys `0`, `1`, `2` map
to `null`, `'Go Pro'`, `'Go Expert'` respectively; indexing with any other
key yields `undefined`. -/
def buttonTextsFromAccessLevel (accessLevel : Int) : JsVal :=
  if accessLevel = 0 then .null
  else if accessLevel = 1 then .str "Go Pro"
  else if accessLevel = 2 then .str "Go Expert"
  else .undefined

/-- The outcome of `getTemplateActionButton`: the template selected from the
cache by the final view identifier, and the `buttonText` datum handed to the
renderer (template lookup and rendering themselves are external). -/
structure RenderResult where
  viewId : String
  buttonText : JsVal
deriving DecidableEq, Repr

/-- Modelled from the spec: the external filter registry, applied at the
named chain as `applyFilters( name, viewId, templateData )`; with no
registered extension it returns the value unchanged. -/
def noFilters : String → TemplateData → String :=
  fun viewId _ => viewId

/-- `getTemplateActionButton( templateData )`, parametrized by the external
filter chain registered at
`'elementor/editor/template-library/template/action-button'`: computes the
view identifier from the access level, passes it through the chain together
with the metadata, and renders the selected template with the looked-up
button text. -/
def getTemplateActionButton (applyFilters : String → TemplateData → String)
    (templateData : TemplateData) : RenderResult :=
  let viewId := computedViewId templateData
  let viewId := applyFilters viewId templateData
  { viewId := viewId,
    buttonText := buttonTextsFromAccessLevel templateData.accessLevel }

/-- Whether an event populates some region. -/
def Event.isShowEv : Event → Bool
  | .showEv _ _ => true
  | .resetEv _ => false

/-- Whether an event resets the menu region. -/
def Event.isMenuResetEv : Event → Bool
  | .resetEv .menuArea => true
  | _ => false

/-- A trace resets the menu before populating anything: no event before the
first menu reset populates a region. -/
def menuResetFirst (es : List Event) : Bool :=
  (es.takeWhile (fun e => !e.isMenuResetEv)).all (fun e => !e.isShowEv)

/-- C1: for every prior state of the modal, each of `showImportView`,
`showConnectView`, `showSaveTemplateView` and `showPreviewView` leaves the
menu region empty when it returns. -/
theorem menu_empty_after_non_default_views (m : Modal) (args elementModel : Nat)
    (tm : TemplateModel) :
    (m.showImportView).menuArea.occupant = none ∧
    (m.showConnectView args).menuArea.occupant = none ∧
    (m.showSaveTemplateView elementModel).menuArea.occupant = none ∧
    (m.showPreviewView tm).menuArea.occupant = none :=
  ⟨rfl, rfl, rfl, rfl⟩

/-- C3 counterexample: the trace of `showPreviewView` populates the content
region (with the preview view) before the menu region is reset, so the menu
reset does not happen before all population in that transition. -/
theorem showPreviewView_populates_before_menu_reset :
    menuResetFirst (showPreviewViewTrace ⟨"u"⟩) = false := by
  rfl

/-- C3 amended: in `showImportView`, `showConnectView` and
`showSaveTemplateView` the menu reset precedes every population event; in
`showPreviewView` the first event populates the content region with the
preview view, and the menu reset precedes the remaining population events
(tools and logo). -/
theorem menu_reset_order_amended (args elementModel : Nat) (tm : TemplateModel) :
    menuResetFirst showImportViewTrace = true ∧
    menuResetFirst (showConnectViewTrace args) = true ∧
    menuResetFirst (showSaveTemplateViewTrace elementModel) = true ∧
    (showPreviewViewTrace tm).head? =
      some (.showEv .modalContent (.previewFrame tm.url)) ∧
    menuResetFirst ((showPreviewViewTrace tm).drop 1) = true :=
  ⟨rfl, rfl, rfl, rfl, rfl⟩

/-- C4: every controller operation is idempotent up to modal-state
equivalence (equality of each region's occupant): calling it twice with the
same arguments yields a state equivalent to calling it once. -/
theorem operations_idempotent (m : Modal) (c args elementModel : Nat)
    (tm : TemplateModel) :
    Modal.equiv (m.setHeaderDefaultParts.setHeaderDefaultParts)
      m.setHeaderDefaultParts ∧
    Modal.equiv ((m.showTemplatesView c).showTemplatesView c)
      (m.showTemplatesView c) ∧
    Modal.equiv (m.showImportView.showImportView) m.showImportView ∧
    Modal.equiv ((m.showConnectView args).showConnectView args)
      (m.showConnectView args) ∧
    Modal.equiv ((m.showSaveTemplateView elementModel).showSaveTemplateView
      elementModel) (m.showSaveTemplateView elementModel) ∧
    Modal.equiv ((m.showPreviewView tm).showPreviewView tm)
      (m.showPreviewView tm) :=
  ⟨⟨rfl, rfl, rfl, rfl⟩, ⟨rfl, rfl, rfl, rfl⟩, ⟨rfl, rfl, rfl, rfl⟩,
    ⟨rfl, rfl, rfl, rfl⟩, ⟨rfl, rfl, rfl, rfl⟩, ⟨rfl, rfl, rfl, rfl⟩⟩

/-- C5: for every prior modal state, `setHeaderDefaultParts` leaves the
tools region holding the header-actions view, the menu region holding the
header-menu view, and the logo region holding the logo view — exactly one
occupant each. -/
theorem setHeaderDefaultParts_populates_header (m : Modal) :
    (m.setHeaderDefaultParts).tools.occupant = some .headerActions ∧
    (m.setHeaderDefaultParts).menuArea.occupant = some .headerMenu ∧
    (m.setHeaderDefaultParts).logoArea.occupant = some .logo :=
  ⟨rfl, rfl, rfl⟩

/-- C6: starting from the default screen (header defaults plus a templates
view), `showSaveTemplateView x` empties the menu and puts the save-template
view bound to `x` in the content region; a subsequent
`setHeaderDefaultParts` repopulates tools, menu and logo with their default
views while leaving the content region unchanged. -/
theorem saveTemplate_then_default_scenario (m0 : Modal) (c x : Nat) :
    (((m0.setHeaderDefaultParts).showTemplatesView c).showSaveTemplateView
        x).menuArea.occupant = none ∧
    (((m0.setHeaderDefaultParts).showTemplatesView c).showSaveTemplateView
        x).modalContent.occupant = some (.saveTemplate x) ∧
    ((((m0.setHeaderDefaultParts).showTemplatesView c).showSaveTemplateView
        x).setHeaderDefaultParts).tools.occupant = some .headerActions ∧
    ((((m0.setHeaderDefaultParts).showTemplatesView c).showSaveTemplateView
        x).setHeaderDefaultParts).menuArea.occupant = some .headerMenu ∧
    ((((m0.setHeaderDefaultParts).showTemplatesView c).showSaveTemplateView
        x).setHeaderDefaultParts).logoArea.occupant = some .logo ∧
    ((((m0.setHeaderDefaultParts).showTemplatesView c).showSaveTemplateView
        x).setHeaderDefaultParts).modalContent.occupant =
      (((m0.setHeaderDefaultParts).showTemplatesView c).showSaveTemplateView
        x).modalContent.occupant :=
  ⟨rfl, rfl, rfl, rfl, rfl, rfl⟩

/-- C2: with no registered filter, `getTemplateActionButton` resolves access
level 0 to the insert-button identifier with button text `null`, level 1 to
the get-pro-button identifier with text `'Go Pro'`, and level 2 to the
get-pro-button identifier with text `'Go Expert'`. -/
theorem getTemplateActionButton_accessLevel_cases (td : TemplateData) :
    (td.accessLevel = 0 →
      getTemplateActionButton noFilters td =
        ⟨"#tmpl-elementor-template-library-insert-button", .null⟩) ∧
    (td.accessLevel = 1 →
      getTemplateActionButton noFilters td =
        ⟨"#tmpl-elementor-template-library-get-pro-button", .str "Go Pro"⟩) ∧
    (td.accessLevel = 2 →
      getTemplateActionButton noFilters td =
        ⟨"#tmpl-elementor-template-library-get-pro-button", .str "Go Expert"⟩) := by
  obtain ⟨l⟩ := td
  refine ⟨fun h => ?_, fun h => ?_, fun h => ?_⟩ <;> (subst h; decide)

/-- Witness for C2 at the three concrete access levels. -/
theorem getTemplateActionButton_accessLevel_cases_witness :
    getTemplateActionButton noFilters ⟨0⟩ =
      ⟨"#tmpl-elementor-template-library-insert-button", .null⟩ ∧
    getTemplateActionButton noFilters ⟨1⟩ =
      ⟨"#tmpl-elementor-template-library-get-pro-button", .str "Go Pro"⟩ ∧
    getTemplateActionButton noFilters ⟨2⟩ =
      ⟨"#tmpl-elementor-template-library-get-pro-button", .str "Go Expert"⟩ :=
  ⟨(getTemplateActionButton_accessLevel_cases ⟨0⟩).1 rfl,
    (getTemplateActionButton_accessLevel_cases ⟨1⟩).2.1 rfl,
    (getTemplateActionButton_accessLevel_cases ⟨2⟩).2.2 rfl⟩

/-- C7: the computed identifier is passed through the filter chain together
with the template metadata, and the identifier the chain returns is used
unchanged; when the chain alters nothing, the rendered template is the one
selected by the computed identifier. -/
theorem actionButton_filter_chain (f : String → TemplateData → String)
    (td : TemplateData) :
    (getTemplateActionButton f td).viewId = f (computedViewId td) td ∧
    ((∀ s t, f s t = s) →
      (getTemplateActionButton f td).viewId = computedViewId td) :=
  ⟨rfl, fun h => h (computedViewId td) td⟩

/-- Witness for C7 with the empty filter chain at access level 0. -/
theorem actionButton_filter_chain_witness :
    (getTemplateActionButton noFilters ⟨0⟩).viewId = computedViewId ⟨0⟩ :=
  (actionButton_filter_chain noFilters ⟨0⟩).2 (fun _ _ => rfl)

/-- C10: for every access level other than 0 the computed identifier is the
get-pro-button one, and for access levels outside `{0, 1, 2}` the button is
still rendered (the operation is total) with `undefined` button text. -/
theorem getTemplateActionButton_nonzero_levels (td : TemplateData) :
    (td.accessLevel ≠ 0 →
      computedViewId td = "#tmpl-elementor-template-library-get-pro-button") ∧
    (td.accessLevel ≠ 0 → td.accessLevel ≠ 1 → td.accessLevel ≠ 2 →
      getTemplateActionButton noFilters td =
        ⟨"#tmpl-elementor-template-library-get-pro-button", .undefined⟩) := by
  obtain ⟨l⟩ := td
  constructor
  · intro h
    simp only [computedViewId, ne_eq, h, not_false_iff, if_true]
    rfl
  · intro h0 h1 h2
    simp only [getTemplateActionButton, noFilters, computedViewId,
      buttonTextsFromAccessLevel, ne_eq, h0, h1, h2, not_false_iff,
      if_true, if_false]
    rfl

/-- Witness for C10 at access level 3. -/
theorem getTemplateActionButton_nonzero_levels_witness :
    computedViewId ⟨3⟩ = "#tmpl-elementor-template-library-get-pro-button" ∧
    getTemplateActionButton noFilters ⟨3⟩ =
      ⟨"#tmpl-elementor-template-library-get-pro-button", .undefined⟩ :=
  ⟨(getTemplateActionButton_nonzero_levels ⟨3⟩).1 (by decide),
    (getTemplateActionButton_nonzero_levels ⟨3⟩).2 (by decide) (by decide)
      (by decide)⟩

/-- Helper: the list of all elements but the last, followed by the last
element (when present), is the whole list. -/
theorem dropLast_append_toList_getLast (α : Type) (l : List α) :
    l.dropLast ++ l.getLast?.toList = l := by
  induction l using List.reverseRecOn with
  | nil => rfl
  | append_singleton l a ih => simp

/-- C8: for every finite sequence of `show` calls on a fresh region, the
final occupant is the last view shown and the released log is exactly the
list of prior views, each released exactly once, in order; `show` is a total
operation with no failure path. -/
theorem region_showSeq_spec (α : Type) (vs : List α) :
    ((Region.empty α).showSeq vs).occupant = vs.getLast? ∧
    ((Region.empty α).showSeq vs).released = vs.dropLast := by
  induction vs using List.reverseRecOn with
  | nil => exact ⟨rfl, rfl⟩
  | append_singleton l a ih =>
    have hstep : (Region.empty α).showSeq (l ++ [a]) =
        ((Region.empty α).showSeq l).show a := by
      simp [Region.showSeq]
    constructor
    · rw [hstep]
      simp [Region.show]
    · rw [hstep]
      simp only [Region.show, ih.1, ih.2, List.dropLast_concat]
      exact dropLast_append_toList_getLast α l

/-- C9: `reset` on an empty region is a no-op (no release is recorded);
`reset` on an occupied region empties it and records exactly one release of
the occupant; `reset` is idempotent. -/
theorem region_reset_spec (α : Type) (r : Region α) (v : α) :
    (r.occupant = none → r.reset = r) ∧
    (r.occupant = some v →
      r.reset.occupant = none ∧ r.reset.released = r.released ++ [v]) ∧
    r.reset.reset = r.reset := by
  obtain ⟨occ, rel⟩ := r
  refine ⟨fun h => ?_, fun h => ?_, ?_⟩
  · simp only at h
    subst h
    simp [Region.reset]
  · simp only at h
    subst h
    simp [Region.reset]
  · simp [Region.reset]

/-- Witness for C9 on a concrete empty region and a concrete occupied
region. -/
theorem region_reset_spec_witness :
    Region.reset (⟨none, []⟩ : Region Nat) = ⟨none, []⟩ ∧
    (Region.reset (⟨some 5, []⟩ : Region Nat)).occupant = none ∧
    (Region.reset (⟨some 5, []⟩ : Region Nat)).released = [] ++ [5] :=
  ⟨(region_reset_spec Nat ⟨none, []⟩ 5).1 rfl,
    (region_reset_spec Nat ⟨some 5, []⟩ 5).2.1 rfl⟩

end ElementorLibrary
